import Mathlib

/-!
Verification of the settings registry in `src/args/settings.rs`:
the `ArgSettings` enumeration, the `ArgFlags` bitset registry, and the
case-insensitive textual decoder (`FromStr for ArgSettings`).

Strings are modelled as `List Char`; the 16-bit flag word is a `Nat`
(the bit constants all fit below `2 ^ 16`).
-/

/-- The closed vocabulary of argument settings (`pub enum ArgSettings`). -/
inductive ArgSettings where
  | Required
  | Multiple
  | EmptyValues
  | Global
  | Hidden
  | TakesValue
  | UseValueDelimiter
  | NextLineHelp
  | RequireDelimiter
  | HidePossibleValues
  | AllowLeadingHyphen
  | RequireEquals
  | Last
  | HideDefaultValue
  | RequiredUnlessAll
  | ValueDelimiterNotSet
  deriving DecidableEq, Repr, Fintype

/-- Bit constant `REQUIRED = 1` from the `bitflags!` block. -/
def REQUIRED : Nat := 1

/-- Bit constant `MULTIPLE = 1 << 1`. -/
def MULTIPLE : Nat := 1 <<< 1

/-- Bit constant `EMPTY_VALS = 1 << 2`. -/
def EMPTY_VALS : Nat := 1 <<< 2

/-- Bit constant `GLOBAL = 1 << 3`. -/
def GLOBAL : Nat := 1 <<< 3

/-- Bit constant `HIDDEN = 1 << 4`. -/
def HIDDEN : Nat := 1 <<< 4

/-- Bit constant `TAKES_VAL = 1 << 5`. -/
def TAKES_VAL : Nat := 1 <<< 5

/-- Bit constant `USE_DELIM = 1 << 6`. -/
def USE_DELIM : Nat := 1 <<< 6

/-- Bit constant `NEXT_LINE_HELP = 1 << 7`. -/
def NEXT_LINE_HELP : Nat := 1 <<< 7

/-- Bit constant `R_UNLESS_ALL = 1 << 8`. -/
def R_UNLESS_ALL : Nat := 1 <<< 8

/-- Bit constant `REQ_DELIM = 1 << 9`. -/
def REQ_DELIM : Nat := 1 <<< 9

/-- Bit constant `DELIM_NOT_SET = 1 << 10`. -/
def DELIM_NOT_SET : Nat := 1 <<< 10

/-- Bit constant `HIDE_POS_VALS = 1 << 11`. -/
def HIDE_POS_VALS : Nat := 1 <<< 11

/-- Bit constant `ALLOW_TAC_VALS = 1 << 12`. -/
def ALLOW_TAC_VALS : Nat := 1 <<< 12

/-- Bit constant `REQUIRE_EQUALS = 1 << 13`. -/
def REQUIRE_EQUALS : Nat := 1 <<< 13

/-- Bit constant `LAST = 1 << 14`. -/
def LAST : Nat := 1 <<< 14

/-- Bit constant `HIDE_DEFAULT_VAL = 1 << 15`. -/
def HIDE_DEFAULT_VAL : Nat := 1 <<< 15

/-- The pairing table of `impl_settings!{ArgSettings, Required => REQUIRED, ...}`:
each setting's single flag bit. -/
def flagBit : ArgSettings → Nat
  | .Required => REQUIRED
  | .Multiple => MULTIPLE
  | .EmptyValues => EMPTY_VALS
  | .Global => GLOBAL
  | .Hidden => HIDDEN
  | .TakesValue => TAKES_VAL
  | .UseValueDelimiter => USE_DELIM
  | .NextLineHelp => NEXT_LINE_HELP
  | .RequiredUnlessAll => R_UNLESS_ALL
  | .RequireDelimiter => REQ_DELIM
  | .ValueDelimiterNotSet => DELIM_NOT_SET
  | .HidePossibleValues => HIDE_POS_VALS
  | .AllowLeadingHyphen => ALLOW_TAC_VALS
  | .RequireEquals => REQUIRE_EQUALS
  | .Last => LAST
  | .HideDefaultValue => HIDE_DEFAULT_VAL

/-- The bit index of each setting (the shift amounts of the `bitflags!` block). -/
def bitIdx : ArgSettings → Nat
  | .Required => 0
  | .Multiple => 1
  | .EmptyValues => 2
  | .Global => 3
  | .Hidden => 4
  | .TakesValue => 5
  | .UseValueDelimiter => 6
  | .NextLineHelp => 7
  | .RequiredUnlessAll => 8
  | .RequireDelimiter => 9
  | .ValueDelimiterNotSet => 10
  | .HidePossibleValues => 11
  | .AllowLeadingHyphen => 12
  | .RequireEquals => 13
  | .Last => 14
  | .HideDefaultValue => 15

/-- `pub struct ArgFlags(Flags)` — the 16-bit registry, one per argument. -/
structure ArgFlags where
  bits : Nat
  deriving DecidableEq, Repr

/-- `impl Default for ArgFlags`: `ArgFlags(EMPTY_VALS | DELIM_NOT_SET)`. -/
def ArgFlags.default : ArgFlags := ⟨EMPTY_VALS ||| DELIM_NOT_SET⟩

/-- `ArgFlags::new`: `ArgFlags::default()`. -/
def ArgFlags.new : ArgFlags := ArgFlags.default

/-- Modelled from the spec: the body of the `impl_settings!` macro (defined in
the repository's `macros.rs`, which is not present under `src/`) generates a
setter per setting; per §4.2, **Set(setting)** "idempotently sets the bit for
`setting`" — the bitflags `insert`, a bitwise or with the setting's flag bit. -/
def ArgFlags.set (f : ArgFlags) (s : ArgSettings) : ArgFlags :=
  ⟨f.bits ||| flagBit s⟩

/-- Modelled from the spec: `impl_settings!` (from the missing `macros.rs`)
generates an unsetter per setting; per §4.2, **Unset(setting)** "idempotently
clears the bit" — the bitflags `remove`, a bitwise and with the 16-bit
complement of the setting's flag bit. -/
def ArgFlags.unset (f : ArgFlags) (s : ArgSettings) : ArgFlags :=
  ⟨f.bits &&& (65535 ^^^ flagBit s)⟩

/-- Modelled from the spec: `impl_settings!` (from the missing `macros.rs`)
generates the query; per §4.2, **IsSet(setting)** is a "pure query, no
mutation" — the bitflags `contains` test for the setting's single flag bit. -/
def ArgFlags.is_set (f : ArgFlags) (s : ArgSettings) : Bool :=
  f.bits &&& flagBit s == flagBit s

/-- Modelled from the spec: §4.2 **Toggle(setting)** "flips the bit
(set→clear, clear→set)" — the bitflags `toggle`, a bitwise xor with the
setting's flag bit. -/
def ArgFlags.toggle (f : ArgFlags) (s : ArgSettings) : ArgFlags :=
  ⟨f.bits ^^^ flagBit s⟩

/-- Rust's `char::to_ascii_lowercase`: maps `'A'..='Z'` to the corresponding
lowercase letter and leaves every other character unchanged. -/
def asciiLowerChar (c : Char) : Char :=
  if 'A' ≤ c ∧ c ≤ 'Z' then Char.ofNat (c.toNat + 32) else c

/-- Rust's `str::to_ascii_lowercase`, applied characterwise. -/
def asciiLowerStr (s : List Char) : List Char :=
  s.map asciiLowerChar

/-- The fixed error string of the `FromStr` implementation's fallback arm. -/
def errMsg : String := "unknown ArgSetting, cannot convert from str"

/-- The match arms of `impl FromStr for ArgSettings`, as the ordered
(pattern, result) table of the source's `match`, in source order. The
patterns are pairwise distinct, so first-match lookup over this table is the
source's `match` on the lowercased input. -/
def settingsTable : List (List Char × ArgSettings) :=
  [("required".data, .Required),
   ("multiple".data, .Multiple),
   ("global".data, .Global),
   ("emptyvalues".data, .EmptyValues),
   ("hidden".data, .Hidden),
   ("takesvalue".data, .TakesValue),
   ("usevaluedelimiter".data, .UseValueDelimiter),
   ("nextlinehelp".data, .NextLineHelp),
   ("requiredunlessall".data, .RequiredUnlessAll),
   ("requiredelimiter".data, .RequireDelimiter),
   ("valuedelimiternotset".data, .ValueDelimiterNotSet),
   ("hidepossiblevalues".data, .HidePossibleValues),
   ("allowleadinghyphen".data, .AllowLeadingHyphen),
   ("requireequals".data, .RequireEquals),
   ("last".data, .Last),
   ("hidedefaultvalue".data, .HideDefaultValue)]

/-- The `match` of `impl FromStr for ArgSettings` on the already lowercased
input: the first matching arm's setting, or the fixed error string from the
fallback arm `_ => Err(...)`. -/
def matchLower (l : List Char) : Except String ArgSettings :=
  match settingsTable.lookup l with
  | some v => Except.ok v
  | none => Except.error errMsg

/-- `impl FromStr for ArgSettings`: `match &*s.to_ascii_lowercase() { ... }` —
lowercase the input (ASCII-only), then match it against the sixteen
canonical identifiers. -/
def from_str (s : List Char) : Except String ArgSettings :=
  matchLower (asciiLowerStr s)

/-- The sixteen canonical identifiers accepted by `from_str`. -/
def canonicalIds : List (List Char) :=
  ["required".data, "multiple".data, "global".data, "emptyvalues".data,
   "hidden".data, "takesvalue".data, "usevaluedelimiter".data,
   "nextlinehelp".data, "requiredunlessall".data, "requiredelimiter".data,
   "valuedelimiternotset".data, "hidepossiblevalues".data,
   "allowleadinghyphen".data, "requireequals".data, "last".data,
   "hidedefaultvalue".data]

/-- `true` iff `needle` occurs as a contiguous substring of `hay`. -/
def hasSub (needle : List Char) : List Char → Bool
  | [] => needle.isEmpty
  | c :: t => needle.isPrefixOf (c :: t) || hasSub needle t

/-- U+212A KELVIN SIGN, whose Unicode simple lowercase mapping is `'k'` but
which is left unchanged by ASCII lowercasing. -/
def kelvinChar : Char := Char.ofNat 8490

/-- `"takesvalue"` with its `'k'` replaced by U+212A KELVIN SIGN: an input
that matches a canonical identifier under the Unicode case mapping but not
under ASCII lowercasing. -/
def kelvinInput : List Char :=
  ['t', 'a', kelvinChar, 'e', 's', 'v', 'a', 'l', 'u', 'e']

theorem flagBit_shift (s : ArgSettings) : flagBit s = 1 <<< bitIdx s := by
  cases s <;> rfl

theorem testBit_flagBit (s t : ArgSettings) :
    (flagBit s).testBit (bitIdx t) = (s == t) := by
  revert s t
  decide

theorem testBit_maskBit (s t : ArgSettings) :
    (65535 ^^^ flagBit s).testBit (bitIdx t) = (s != t) := by
  revert s t
  decide

theorem and_single_bit (x i : Nat) :
    x &&& 1 <<< i = if x.testBit i then 1 <<< i else 0 := by
  apply Nat.eq_of_testBit_eq
  intro j
  rcases eq_or_ne j i with rfl | hne
  · cases h : x.testBit j <;>
      simp [Nat.testBit_land, h, Nat.shiftLeft_eq, Nat.testBit_two_pow_self]
  · cases h : x.testBit i <;>
      simp [Nat.testBit_land, h, Nat.shiftLeft_eq,
        Nat.testBit_two_pow_of_ne (Ne.symm hne)]

theorem contains_eq_testBit (x i : Nat) :
    (x &&& 1 <<< i == 1 <<< i) = x.testBit i := by
  rw [and_single_bit]
  cases h : x.testBit i <;> simp [Nat.shiftLeft_eq, (Nat.two_pow_pos i).ne]

theorem is_set_eq_testBit (f : ArgFlags) (s : ArgSettings) :
    f.is_set s = f.bits.testBit (bitIdx s) := by
  rw [ArgFlags.is_set, flagBit_shift, contains_eq_testBit]

/-- Claim C5: `toggle` flips the bit for the given setting, and applying it
twice restores the original `is_set` value, from any starting state. -/
theorem toggle_involution :
    ∀ (f : ArgFlags) (s : ArgSettings),
      (f.toggle s).is_set s = !(f.is_set s) ∧
        ((f.toggle s).toggle s).is_set s = f.is_set s := by
  intro f s
  simp only [is_set_eq_testBit, ArgFlags.toggle, Nat.testBit_xor,
    testBit_flagBit, BEq.refl, Bool.xor_true, Bool.not_not, and_self]

/-- Claim C6: for distinct settings, `set` and `unset` of one setting leave
`is_set` of the other unchanged, from any starting state. -/
theorem set_unset_independence :
    ∀ (f : ArgFlags) (s1 s2 : ArgSettings), s1 ≠ s2 →
      (f.set s1).is_set s2 = f.is_set s2 ∧
        (f.unset s1).is_set s2 = f.is_set s2 := by
  intro f s1 s2 h
  have hb : (s1 == s2) = false := beq_eq_false_iff_ne.mpr h
  have hm : (s1 != s2) = true := by simp [bne, hb]
  simp only [is_set_eq_testBit, ArgFlags.set, ArgFlags.unset,
    Nat.testBit_lor, Nat.testBit_land, testBit_flagBit, testBit_maskBit,
    hb, hm, Bool.or_false, Bool.and_true, and_self]

theorem set_unset_independence_witness :
    (ArgFlags.new.set .Required).is_set .Hidden = ArgFlags.new.is_set .Hidden ∧
      (ArgFlags.new.unset .Required).is_set .Hidden = ArgFlags.new.is_set .Hidden :=
  set_unset_independence ArgFlags.new .Required .Hidden (by decide)

/-- Claim C7: `set` and `unset` are idempotent on the registry state: a second
application yields the identical state. -/
theorem set_unset_idempotent :
    ∀ (f : ArgFlags) (s : ArgSettings),
      (f.set s).set s = f.set s ∧ (f.unset s).unset s = f.unset s := by
  intro f s
  constructor <;>
    · simp only [ArgFlags.set, ArgFlags.unset, ArgFlags.mk.injEq]
      apply Nat.eq_of_testBit_eq
      intro i
      simp [Nat.testBit_lor, Nat.testBit_land, Bool.or_assoc, Bool.and_assoc]

/-- Claim C8: from any state, `set` then `unset` leaves the setting clear, and
`unset` then `set` leaves it set. -/
theorem set_unset_inverse :
    ∀ (f : ArgFlags) (s : ArgSettings),
      ((f.set s).unset s).is_set s = false ∧
        ((f.unset s).set s).is_set s = true := by
  intro f s
  simp only [is_set_eq_testBit, ArgFlags.set, ArgFlags.unset,
    Nat.testBit_lor, Nat.testBit_land, testBit_flagBit, testBit_maskBit,
    BEq.refl, bne_self_eq_false, Bool.or_true, Bool.and_false, Bool.true_and,
    Bool.false_or, and_self]

theorem lookup_isSome_iff {α β : Type} [BEq α] [LawfulBEq α]
    (a : α) (t : List (α × β)) :
    (List.lookup a t).isSome = true ↔ a ∈ t.map Prod.fst := by
  induction t with
  | nil => simp [List.lookup]
  | cons p t ih =>
    obtain ⟨k, v⟩ := p
    rcases eq_or_ne a k with rfl | hk
    · simp [List.lookup]
    · have hb : (a == k) = false := beq_eq_false_iff_ne.mpr hk
      simp [List.lookup, hb, hk, ih]

theorem settingsTable_keys : settingsTable.map Prod.fst = canonicalIds := rfl

theorem matchLower_ok_iff (l : List Char) :
    (∃ v, matchLower l = .ok v) ↔ l ∈ canonicalIds := by
  rw [← settingsTable_keys, ← lookup_isSome_iff l settingsTable]
  unfold matchLower
  rcases h : List.lookup l settingsTable with _ | v <;> simp [h]

theorem matchLower_fallback (l : List Char) (h : l ∉ canonicalIds) :
    matchLower l = .error errMsg := by
  rw [← settingsTable_keys, ← lookup_isSome_iff l settingsTable] at h
  unfold matchLower
  rcases hl : List.lookup l settingsTable with _ | v
  · rfl
  · exact absurd (by simp [hl]) h

theorem from_str_ok_iff (s : List Char) :
    (∃ v, from_str s = .ok v) ↔ asciiLowerStr s ∈ canonicalIds :=
  matchLower_ok_iff (asciiLowerStr s)

theorem from_str_fallback (s : List Char) (h : asciiLowerStr s ∉ canonicalIds) :
    from_str s = .error errMsg :=
  matchLower_fallback (asciiLowerStr s) h

theorem from_str_congr (s1 s2 : List Char)
    (h : asciiLowerStr s1 = asciiLowerStr s2) : from_str s1 = from_str s2 := by
  unfold from_str
  rw [h]

/-- Claim C1: a fresh registry (`ArgFlags::new`, i.e. the default) has exactly
`EmptyValues` and `ValueDelimiterNotSet` set; `is_set` is `false` for every
other setting. -/
theorem new_default_bits :
    ∀ s : ArgSettings,
      ArgFlags.new.is_set s =
        (s == ArgSettings.EmptyValues || s == ArgSettings.ValueDelimiterNotSet) := by
  decide

/-- Claim C9: the two internal settings are reachable through the textual
decoder: `"requiredunlessall"` parses to `RequiredUnlessAll` and
`"valuedelimiternotset"` parses to `ValueDelimiterNotSet`. -/
theorem internal_settings_decodable :
    from_str "requiredunlessall".data = .ok .RequiredUnlessAll ∧
      from_str "valuedelimiternotset".data = .ok .ValueDelimiterNotSet := by
  constructor <;> rfl

/-- Claim C2 counterexample: the error returned for the unrecognized input
`"hahahaha"` is the fixed string `errMsg`, and that string does not contain
the original input as a substring — the error does not carry the input. -/
theorem from_str_error_lacks_input :
    from_str "hahahaha".data = Except.error errMsg ∧
      hasSub "hahahaha".data errMsg.data = false := by
  constructor <;> rfl

/-- Claim C2 (amended): for every input whose ASCII-lowercasing is not one of
the sixteen canonical identifiers, `from_str` returns an error value, but it
is the fixed string `errMsg`, independent of the input — it does not carry
the original input string. -/
theorem from_str_error_fixed :
    ∀ s : List Char, asciiLowerStr s ∉ canonicalIds →
      from_str s = Except.error errMsg := by
  intro s h
  exact from_str_fallback s h

theorem from_str_error_fixed_witness :
    from_str "zzz".data = Except.error errMsg :=
  from_str_error_fixed "zzz".data (by decide)

/-- Claim C3: each of the sixteen canonical lowercase identifiers parses to
exactly its setting, and `from_str` only depends on the ASCII-lowercasing of
its input, so any two inputs that differ only in (ASCII) letter case parse
to the same result. -/
theorem from_str_roundtrip_case :
    (from_str "required".data = .ok .Required ∧
     from_str "multiple".data = .ok .Multiple ∧
     from_str "global".data = .ok .Global ∧
     from_str "emptyvalues".data = .ok .EmptyValues ∧
     from_str "hidden".data = .ok .Hidden ∧
     from_str "takesvalue".data = .ok .TakesValue ∧
     from_str "usevaluedelimiter".data = .ok .UseValueDelimiter ∧
     from_str "nextlinehelp".data = .ok .NextLineHelp ∧
     from_str "requiredunlessall".data = .ok .RequiredUnlessAll ∧
     from_str "requiredelimiter".data = .ok .RequireDelimiter ∧
     from_str "valuedelimiternotset".data = .ok .ValueDelimiterNotSet ∧
     from_str "hidepossiblevalues".data = .ok .HidePossibleValues ∧
     from_str "allowleadinghyphen".data = .ok .AllowLeadingHyphen ∧
     from_str "requireequals".data = .ok .RequireEquals ∧
     from_str "last".data = .ok .Last ∧
     from_str "hidedefaultvalue".data = .ok .HideDefaultValue) ∧
    ∀ s1 s2 : List Char, asciiLowerStr s1 = asciiLowerStr s2 →
      from_str s1 = from_str s2 :=
  ⟨⟨rfl, rfl, rfl, rfl, rfl, rfl, rfl, rfl, rfl, rfl, rfl, rfl, rfl, rfl,
    rfl, rfl⟩, from_str_congr⟩

theorem from_str_roundtrip_case_witness :
    from_str "REQUIRED".data = from_str "required".data :=
  from_str_roundtrip_case.2 "REQUIRED".data "required".data (by decide)

/-- Claim C4: `from_str` succeeds exactly on the inputs whose
ASCII-lowercasing is one of the sixteen canonical identifiers; every other
input yields the fixed error value (a returned `Except.error`, not a panic);
in particular `"hahahaha"` fails. -/
theorem from_str_exactly_sixteen :
    (∀ s : List Char, (∃ v, from_str s = .ok v) ↔ asciiLowerStr s ∈ canonicalIds) ∧
    (∀ s : List Char, asciiLowerStr s ∉ canonicalIds →
      from_str s = Except.error errMsg) ∧
    from_str "hahahaha".data = Except.error errMsg :=
  ⟨from_str_ok_iff, from_str_fallback, by rfl⟩

theorem from_str_exactly_sixteen_witness :
    from_str "hahahaha".data = Except.error errMsg :=
  from_str_exactly_sixteen.2.1 "hahahaha".data (by decide)

/-- Claim C10: the parser's case-insensitivity is ASCII-only. `from_str`
succeeds on exactly the inputs whose ASCII-lowercasing (lowercasing only
`'A'..'Z'`) is one of the sixteen canonical identifiers, and the concrete
input `kelvinInput` — which matches `"takesvalue"` only under the Unicode
case mapping (U+212A KELVIN SIGN lowercases to `'k'`) — is rejected with the
error value, while `"takesvalue"` itself parses. -/
theorem ascii_only_case_fold :
    (∀ s : List Char, (∃ v, from_str s = .ok v) ↔ asciiLowerStr s ∈ canonicalIds) ∧
    from_str kelvinInput = Except.error errMsg ∧
    (kelvinInput.map fun c => if c = kelvinChar then 'k' else c) = "takesvalue".data ∧
    from_str "takesvalue".data = Except.ok ArgSettings.TakesValue :=
  ⟨from_str_ok_iff, by rfl, by rfl, by rfl⟩
